import Mathlib

/-!
Shallow embedding of the math-quiz analytics pipeline of `app.py`:
the question-store difficulty heuristic, answer extraction, the
correctness judge, work transcription, Stage-1 aggregation, the Stage-2
KPI engine, Stage-3 synthesis and the submit flow.  External services
(the reasoning model, the OCR model, the JSON parser of the standard
library) are modelled as explicit environments or parse oracles; every
computation performed by the repository code itself is translated
directly from the source.
-/

/-- A Python value as produced by `json.loads`, restricted to the shapes
the answer payloads use (floating-point literals are not needed by any of
the checked claims). -/
inductive PyVal where
  | pyNone : PyVal
  | pyBool : Bool → PyVal
  | pyInt : Int → PyVal
  | pyString : String → PyVal
  | pyList : List PyVal → PyVal
  | pyDict : List (String × PyVal) → PyVal

mutual

/-- Python `repr` of a value (strings are quoted with `'`, written here
with the escape `\x27`; dict braces written with `\x7b`/`\x7d`). -/
def pyRepr : PyVal → String
  | .pyNone => "None"
  | .pyBool b => if b then "True" else "False"
  | .pyInt n => toString n
  | .pyString s => "\x27" ++ s ++ "\x27"
  | .pyList xs => "[" ++ pyReprSeq xs ++ "]"
  | .pyDict kvs => "\x7b" ++ pyReprDict kvs ++ "\x7d"

/-- Comma-separated `repr`s of the elements of a list. -/
def pyReprSeq : List PyVal → String
  | [] => ""
  | [x] => pyRepr x
  | x :: y :: xs => pyRepr x ++ ", " ++ pyReprSeq (y :: xs)

/-- Comma-separated `repr`s of the key/value pairs of a dict. -/
def pyReprDict : List (String × PyVal) → String
  | [] => ""
  | [(k, v)] => "\x27" ++ k ++ "\x27: " ++ pyRepr v
  | (k, v) :: p :: kvs => "\x27" ++ k ++ "\x27: " ++ pyRepr v ++ ", " ++ pyReprDict (p :: kvs)

end

/-- Python `str` of a value: the string itself for strings, `repr`
otherwise (which agrees with `str` on numbers, booleans, `None`,
lists and dicts). -/
def pyStr : PyVal → String
  | .pyString s => s
  | v => pyRepr v

/-- Python truthiness of a value. -/
def pyTruthy : PyVal → Bool
  | .pyNone => false
  | .pyBool b => b
  | .pyInt n => n != 0
  | .pyString s => s != ""
  | .pyList xs => !xs.isEmpty
  | .pyDict kvs => !kvs.isEmpty

/-- `extract_answer_from_json` (app.py lines 119-141).  `parse` models
`json.loads`; `parse s = none` models the parser raising on invalid
JSON, which the bare `except` turns into returning the raw input.  An
empty (falsy) input returns `None` before any parse is attempted. -/
def extract_answer_from_json (parse : String → Option PyVal)
    (answerJsonStr : String) (answerType : String) : Option String :=
  if answerJsonStr == "" then none
  else
    match parse answerJsonStr with
    | none => some answerJsonStr
    | some answerData =>
      match answerData with
      | .pyDict kvs =>
        match List.lookup "answer" kvs with
        | some v => some (pyStr v)
        | none =>
          match List.lookup "value" kvs with
          | some v => some (pyStr v)
          | none =>
            if answerType == "integer" || answerType == "float" then
              match List.lookup "number" kvs with
              | some v => some (pyStr v)
              | none =>
                match List.lookup "numerical_value" kvs with
                | some v => some (pyStr v)
                | none =>
                  match List.lookup "result" kvs with
                  | some v => some (pyStr v)
                  | none => some (pyStr answerData)
            else some (pyStr answerData)
      | .pyList (x :: _) => some (pyStr x)
      | other => some (pyStr other)

/-- The ordered key-priority list described by the spec for dict payloads:
`answer`, `value`, and — only for numeric answer types — `number`,
`numerical_value`, `result`. -/
def specAnswerKeys (answerType : String) : List String :=
  ["answer", "value"] ++
    (if answerType == "integer" || answerType == "float" then
      ["number", "numerical_value", "result"]
    else [])

/-- Spec-side description of the dict case of extraction: the value at the
first present key of the priority list. -/
def specFirstKeyValue (answerType : String) (kvs : List (String × PyVal)) : Option PyVal :=
  (specAnswerKeys answerType).findSome? (fun k => List.lookup k kvs)

/-- Difficulty heuristic of the first (olympiad) store (app.py lines
193-199): `medium` by default; when the solution text is truthy,
length < 200 is `easy` and length > 500 is `hard`. -/
def storeOneDifficulty (solution : String) : String :=
  if solution == "" then "medium"
  else if solution.length < 200 then "easy"
  else if 500 < solution.length then "hard"
  else "medium"

/-- Environment for the reasoning service used by the correctness judge:
the optional credential and the outcome of a `generate_content` call on
the four judge inputs (`none` models the call raising). -/
structure LLMEnv where
  apiKey : Option String
  generate : String → String → String → String → Option String

/-- Python `str.strip()`: drop whitespace from both ends. -/
def pyStrip (s : String) : String :=
  String.mk ((s.toList.dropWhile Char.isWhitespace).reverse.dropWhile Char.isWhitespace).reverse

/-- Python `str.lower()`. -/
def pyLower (s : String) : String := String.mk (s.toList.map Char.toLower)

/-- Python `str.upper()`. -/
def pyUpper (s : String) : String := String.mk (s.toList.map Char.toUpper)

/-- The deterministic fallback comparison of `check_answer_with_llm`
(app.py lines 273 and 306): trimmed, lower-cased string equality. -/
def fallback_compare (studentAnswer correctAnswer : String) : Bool :=
  pyLower (pyStrip studentAnswer) == pyLower (pyStrip correctAnswer)

/-- Python substring containment (`pat in s`). -/
def strContains (pat : String) (s : String) : Bool :=
  (List.range (s.toList.length + 1)).any
    (fun i => pat.toList.isPrefixOf (s.toList.drop i))

/-- Verdict extraction from the model response (app.py lines 301-302):
`true` iff `CORRECT` is a substring of the trimmed, upper-cased text. -/
def llmSaysCorrect (resp : String) : Bool :=
  strContains "CORRECT" (pyUpper (pyStrip resp))

/-- `check_answer_with_llm` (app.py lines 267-306): without a credential,
fall back to string comparison; with one, use the model verdict, falling
back again if the call raises. -/
def check_answer_with_llm (env : LLMEnv)
    (studentAnswer correctAnswer questionText answerType : String) : Bool :=
  match env.apiKey with
  | none => fallback_compare studentAnswer correctAnswer
  | some _ =>
    match env.generate studentAnswer correctAnswer questionText answerType with
    | some resp => llmSaysCorrect resp
    | none => fallback_compare studentAnswer correctAnswer

/-- Environment for the vision/OCR service: the optional credential and
the outcome of the upload-and-transcribe round trip (`none` models an
exception raised anywhere in the external call). -/
structure OcrEnv where
  apiKey : Option String
  ocrResult : Option String

/-- Result of `process_student_work`, including the file-system effect on
the temporary upload file (written before the external call, removed by
`os.remove` only on the success path). -/
structure WorkResult where
  ocrText : String
  combinedText : String
  tempWritten : Bool
  tempRemoved : Bool

/-- `process_student_work` (app.py lines 309-358).  With no uploaded
image, or no credential, the OCR text stays empty and the combined text
is the typed work.  With an image and a credential the temporary file is
written, then the external call either raises (leaving OCR empty, the
combined text as the typed work, and the temporary file on disk) or
returns text that is stripped and combined. -/
def process_student_work (env : OcrEnv) (typedWork : String) (hasImage : Bool) : WorkResult :=
  if hasImage then
    match env.apiKey with
    | some _ =>
      match env.ocrResult with
      | some raw =>
        let ocr := pyStrip raw
        let combined :=
          if typedWork != "" && ocr != "" then
            "**Typed Work:**\n" ++ typedWork ++ "\n\n**Handwritten Work (OCR):**\n" ++ ocr
          else if ocr != "" then ocr
          else typedWork
        { ocrText := ocr, combinedText := combined, tempWritten := true, tempRemoved := true }
      | none =>
        { ocrText := "", combinedText := typedWork, tempWritten := true, tempRemoved := false }
    | none =>
      { ocrText := "", combinedText := typedWork, tempWritten := false, tempRemoved := false }
  else
    { ocrText := "", combinedText := typedWork, tempWritten := false, tempRemoved := false }

/-- A per-question response held in the shell's session state: the
optional final answer (Python stores only non-empty strings here, but the
model allows any), the changed-answer flag and the typed work. -/
structure Response where
  finalAnswer : Option String
  changedAnswer : Bool
  typedWork : String

/-- A fetched question (the fields Stage 1 consumes). -/
structure Question where
  questionId : String
  questionType : String
  difficulty : String
  conceptTags : List String
  questionText : String
  correctAnswer : String
  answerType : String

/-- The shell-owned session state handed to Stage 1: questions, the
responses map and the timing/edit-count tables, plus the set of question
ids with an uploaded image.  Times are seconds (Python floats truncated
by `int(...)` in the report are modelled as naturals). -/
structure QuizSession where
  questions : List Question
  responses : List (String × Response)
  questionStartTimes : List (String × Nat)
  firstAttemptTimes : List (String × Nat)
  optionChanges : List (String × Nat)
  startTime : Nat
  uploadedFiles : List String

/-- One Stage-1 per-question record (app.py lines 672-696). -/
structure Stage1Record where
  questionId : String
  difficulty : String
  conceptTags : List String
  finalAnswer : String
  correctAnswer : String
  isCorrect : Bool
  changedAnswer : Bool
  timeSpentSec : Nat
  firstAttemptLatencySec : Nat
  numOptionChanges : Nat
  revisionOutcome : String
  handwrittenUploaded : Bool
  typedWorkProvided : Bool
  typedWorkText : String
  handwrittenWorkOcr : String
  combinedWorkText : String

/-- Stage-1 score summary (app.py lines 714-720). -/
structure ScoreSummary where
  rawScore : Nat
  maxScore : Nat
  correctCount : Nat
  incorrectCount : Nat
  unattemptedCount : Nat

/-- A Stage-1 report: the per-question records plus the score summary. -/
structure Stage1Report where
  questions : List Stage1Record
  scoreSummary : ScoreSummary

/-- The response stored for a question id, or the empty default
(`response = st.session_state.responses.get(q_id, {})`). -/
def respOf (sess : QuizSession) (qid : String) : Response :=
  (sess.responses.lookup qid).getD { finalAnswer := none, changedAnswer := false, typedWork := "" }

/-- The record's `final_answer` field: `str(final_answer) if final_answer
else ""` — a missing or empty answer both become the empty string. -/
def finalAnswerOf (sess : QuizSession) (qid : String) : String :=
  ((respOf sess qid).finalAnswer).getD ""

/-- `is_correct`: the judge verdict for attempted questions, `False` for
unattempted ones (no judge call). -/
def isCorrectOf (judge : String → String → String → String → Bool)
    (sess : QuizSession) (q : Question) : Bool :=
  if finalAnswerOf sess q.questionId != "" then
    judge (finalAnswerOf sess q.questionId) q.correctAnswer q.questionText q.answerType
  else false

/-- `time_spent_sec` (app.py lines 659-660): elapsed time since the
question was first shown, `0` when it never was. -/
def timeSpentOf (sess : QuizSession) (qid : String) (now : Nat) : Nat :=
  match sess.questionStartTimes.lookup qid with
  | some t => now - t
  | none => 0

/-- `first_attempt_latency_sec` (app.py line 662). -/
def latencyOf (sess : QuizSession) (qid : String) : Nat :=
  (sess.firstAttemptTimes.lookup qid).getD 0

/-- `num_option_changes` (app.py line 663). -/
def numChangesOf (sess : QuizSession) (qid : String) : Nat :=
  (sess.optionChanges.lookup qid).getD 0

/-- `revision_outcome` derivation (app.py lines 665-667). -/
def revisionOutcomeOf (numChanges : Nat) (isCorrect : Bool) : String :=
  if numChanges > 0 then (if isCorrect then "improved" else "worsened") else "none"

/-- One iteration of the Stage-1 loop (app.py lines 631-698) producing
the per-question record.  `judge` abstracts `check_answer_with_llm`
(whose environment is external) and `ocrEnvs` gives the OCR environment
seen while processing each question. -/
def mkRecord (judge : String → String → String → String → Bool)
    (ocrEnvs : String → OcrEnv) (sess : QuizSession) (now : Nat) (q : Question) : Stage1Record :=
  { questionId := q.questionId
    difficulty := q.difficulty
    conceptTags := q.conceptTags
    finalAnswer := finalAnswerOf sess q.questionId
    correctAnswer := q.correctAnswer
    isCorrect := isCorrectOf judge sess q
    changedAnswer := (respOf sess q.questionId).changedAnswer
    timeSpentSec := timeSpentOf sess q.questionId now
    firstAttemptLatencySec := latencyOf sess q.questionId
    numOptionChanges := numChangesOf sess q.questionId
    revisionOutcome := revisionOutcomeOf (numChangesOf sess q.questionId) (isCorrectOf judge sess q)
    handwrittenUploaded := sess.uploadedFiles.contains q.questionId
    typedWorkProvided := (respOf sess q.questionId).typedWork != ""
    typedWorkText := (respOf sess q.questionId).typedWork
    handwrittenWorkOcr :=
      (process_student_work (ocrEnvs q.questionId) (respOf sess q.questionId).typedWork
        (sess.uploadedFiles.contains q.questionId)).ocrText
    combinedWorkText :=
      (process_student_work (ocrEnvs q.questionId) (respOf sess q.questionId).typedWork
        (sess.uploadedFiles.contains q.questionId)).combinedText }

/-- The per-question records of the Stage-1 loop. -/
def stage1Records (judge : String → String → String → String → Bool)
    (ocrEnvs : String → OcrEnv) (sess : QuizSession) (now : Nat) : List Stage1Record :=
  sess.questions.map (mkRecord judge ocrEnvs sess now)

/-- `generate_performance_report` (app.py lines 616-724) as a pure
function of the session, the judge, the OCR environments and the
report-generation time. -/
def generate_performance_report (judge : String → String → String → String → Bool)
    (ocrEnvs : String → OcrEnv) (sess : QuizSession) (now : Nat) : Stage1Report :=
  { questions := stage1Records judge ocrEnvs sess now
    scoreSummary :=
      { rawScore := (stage1Records judge ocrEnvs sess now).countP (fun r => r.isCorrect)
        maxScore := sess.questions.length
        correctCount := (stage1Records judge ocrEnvs sess now).countP (fun r => r.isCorrect)
        incorrectCount :=
          (stage1Records judge ocrEnvs sess now).countP
            (fun r => (r.finalAnswer != "") && !r.isCorrect)
        unattemptedCount :=
          (stage1Records judge ocrEnvs sess now).countP (fun r => r.finalAnswer == "") } }

/-- Invariant maintained by the interactive shell (spec section 3): a
first-attempt latency is recorded only when a non-empty final answer was
entered, and the stored final answer never becomes empty afterwards. -/
def SessionInv (sess : QuizSession) : Prop :=
  ∀ qid v, sess.firstAttemptTimes.lookup qid = some v →
    ∃ r s, sess.responses.lookup qid = some r ∧ r.finalAnswer = some s ∧ s ≠ ""

/-- `total_attempted` (app.py line 738): questions with a truthy
(non-empty) final answer. -/
def total_attempted (qs : List Stage1Record) : Nat :=
  qs.countP (fun q => q.finalAnswer != "")

/-- `impulsive_count` (app.py line 753): questions — all of them, not
only attempted ones — with first-attempt latency strictly between 0 and
the threshold 20. -/
def impulsive_count (qs : List Stage1Record) : Nat :=
  qs.countP (fun q =>
    decide (0 < q.firstAttemptLatencySec) && decide (q.firstAttemptLatencySec < 20))

/-- `impulsivity_index` (app.py line 754). -/
def impulsivity_index (qs : List Stage1Record) : ℚ :=
  if 0 < total_attempted qs then
    (impulsive_count qs : ℚ) / (total_attempted qs : ℚ)
  else 0

/-- `easy_questions` (app.py line 747). -/
def easy_questions (qs : List Stage1Record) : List Stage1Record :=
  qs.filter (fun q => q.difficulty == "easy")

/-- `overthinking_count` (app.py line 749): easy questions whose time
spent exceeds the 120-second threshold. -/
def overthinking_count (qs : List Stage1Record) : Nat :=
  (easy_questions qs).countP (fun q => decide (120 < q.timeSpentSec))

/-- `overthinking_index` (app.py line 750). -/
def overthinking_index (qs : List Stage1Record) : ℚ :=
  if (easy_questions qs).isEmpty then 0
  else (overthinking_count qs : ℚ) / ((easy_questions qs).length : ℚ)

/-- Spec-side numerator for the impulsivity index: attempted questions
whose latency lies in the open interval (0, 20). -/
def specImpulsiveCount (qs : List Stage1Record) : Nat :=
  qs.countP (fun q =>
    (q.finalAnswer != "") && decide (0 < q.firstAttemptLatencySec)
      && decide (q.firstAttemptLatencySec < 20))

/-- Spec-side impulsivity index: the fraction of attempted questions with
latency in (0, 20), and 0 when nothing is attempted. -/
def specImpulsivityIndex (qs : List Stage1Record) : ℚ :=
  if 0 < total_attempted qs then
    (specImpulsiveCount qs : ℚ) / (total_attempted qs : ℚ)
  else 0

/-- Spec-side count of easy questions (over all questions, regardless of
attempt status). -/
def specEasyCount (qs : List Stage1Record) : Nat :=
  qs.countP (fun q => q.difficulty == "easy")

/-- Spec-side count of easy questions whose time spent exceeds 120. -/
def specOverthinkCount (qs : List Stage1Record) : Nat :=
  qs.countP (fun q => (q.difficulty == "easy") && decide (120 < q.timeSpentSec))

/-- Whether a record carries a given concept tag. -/
def hasTag (tag : String) (q : Stage1Record) : Bool :=
  q.conceptTags.contains tag

/-- Per-concept attempted count (app.py lines 774-775). -/
def concept_attempted (tag : String) (qs : List Stage1Record) : Nat :=
  qs.countP (fun q => hasTag tag q && (q.finalAnswer != ""))

/-- Per-concept correct count (app.py lines 777-778). -/
def concept_correct (tag : String) (qs : List Stage1Record) : Nat :=
  qs.countP (fun q => hasTag tag q && (q.finalAnswer != "") && q.isCorrect)

/-- Per-concept work-evidence count (app.py lines 791-792): attempted
questions with typed work or an uploaded image. -/
def concept_evidence (tag : String) (qs : List Stage1Record) : Nat :=
  qs.countP (fun q =>
    hasTag tag q && (q.finalAnswer != "")
      && (q.typedWorkProvided || q.handwrittenUploaded))

/-- Per-concept accuracy (app.py line 800). -/
def concept_accuracy (tag : String) (qs : List Stage1Record) : ℚ :=
  (concept_correct tag qs : ℚ) / (concept_attempted tag qs : ℚ)

/-- The rule-based work-quality rating (app.py lines 802-808): coverage
at least 0.8 of the attempted count gives 8 or 6 by accuracy, coverage at
least 0.5 gives 6 or 4, anything lower gives 3. -/
def work_quality (evidence attempted : Nat) (accuracy : ℚ) : Nat :=
  if (attempted : ℚ) * (4 / 5) ≤ (evidence : ℚ) then
    (if 7 / 10 < accuracy then 8 else 6)
  else if (attempted : ℚ) * (1 / 2) ≤ (evidence : ℚ) then
    (if 1 / 2 < accuracy then 6 else 4)
  else 3

/-- The work-quality rating the Stage-2 aggregator emits for a concept. -/
def concept_work_quality (tag : String) (qs : List Stage1Record) : Nat :=
  work_quality (concept_evidence tag qs) (concept_attempted tag qs) (concept_accuracy tag qs)

/-- Environment for the Stage-3 synthesis call: the optional credential
and the raw model response (`none` models the call raising). -/
structure Stage3Env where
  apiKey : Option String
  llmResponse : Option String

/-- Code-fence stripping applied to the Stage-3 response before parsing
(app.py lines 1054-1059). -/
def stripCodeFences (t : String) : String :=
  let t := pyStrip t
  if t.startsWith "```json" then pyStrip ((t.replace "```json" "").replace "```" "")
  else if t.startsWith "```" then pyStrip (t.replace "```" "")
  else t

/-- `generate_stage3_report_with_llm` (app.py lines 903-1072) reduced to
its control flow: `none` without a credential, `none` when the call
raises, and otherwise the result of parsing the fence-stripped response
(`parse = none` models `json.loads` raising, caught and turned into
`None`). -/
def generate_stage3_report_with_llm (env : Stage3Env)
    (parse : String → Option PyVal) : Option PyVal :=
  match env.apiKey with
  | none => none
  | some _ =>
    match env.llmResponse with
    | none => none
    | some txt => parse (stripCodeFences txt)

/-- Outcome of the submit flow: whether the report file was written,
whether the quiz was finalized (page moved to results), and the Stage-1
and Stage-2 reports it ends with. -/
structure SubmitOutcome (σ₁ σ₂ : Type) where
  persisted : Bool
  finalized : Bool
  stage1 : σ₁
  stage2 : σ₂

/-- The submit-button flow of `render_submit_page` (app.py lines
1112-1136): a truthy Stage-3 result is persisted and the quiz finalized;
otherwise nothing is persisted, the page stays, and the already-computed
Stage-1/Stage-2 reports are untouched. -/
def render_submit {σ₁ σ₂ : Type} (stage1 : σ₁) (stage2 : σ₂)
    (stage3 : Option PyVal) : SubmitOutcome σ₁ σ₂ :=
  match stage3 with
  | some r =>
    if pyTruthy r then
      { persisted := true, finalized := true, stage1 := stage1, stage2 := stage2 }
    else
      { persisted := false, finalized := false, stage1 := stage1, stage2 := stage2 }
  | none =>
    { persisted := false, finalized := false, stage1 := stage1, stage2 := stage2 }

/-- A string of `n` copies of the letter a, used to probe the difficulty
heuristic at given solution-text lengths. -/
def sampleText (n : Nat) : String := String.mk (List.replicate n 'a')

/-- Judge environment with no credential configured. -/
def envNoKey : LLMEnv := { apiKey := none, generate := fun _ _ _ _ => none }

/-- OCR environment with a credential and a successful transcription. -/
def ocrEnvOk : OcrEnv := { apiKey := some "k", ocrResult := some "lines of work" }

/-- OCR environment with a credential whose external call raises. -/
def leakEnv : OcrEnv := { apiKey := some "key", ocrResult := none }

/-- Stage-3 environment with the credential missing. -/
def stage3FailEnv : Stage3Env := { apiKey := none, llmResponse := none }

/-- A parse oracle on which every input is invalid JSON (in particular the
empty string, on which `json.loads` raises). -/
def parseNone : String → Option PyVal := fun _ => none

/-- A small concrete parse oracle: one invalid input, one dict payload and
one list payload. -/
def parseDemo : String → Option PyVal := fun s =>
  if s == "notjson" then none
  else if s == "obj" then some (.pyDict [("value", .pyInt 3)])
  else if s == "arr" then some (.pyList [.pyString "first", .pyInt 2])
  else none

/-- A concrete Stage-1 record: an attempted, correctly answered easy
question with no work evidence. -/
def sampleRecord : Stage1Record :=
  { questionId := "OLY_1", difficulty := "easy", conceptTags := ["ALGEBRA"],
    finalAnswer := "4", correctAnswer := "4", isCorrect := true,
    changedAnswer := false, timeSpentSec := 30, firstAttemptLatencySec := 25,
    numOptionChanges := 0, revisionOutcome := "none",
    handwrittenUploaded := false, typedWorkProvided := false,
    typedWorkText := "", handwrittenWorkOcr := "", combinedWorkText := "" }

/-- A concrete fetched question. -/
def sampleQuestion : Question :=
  { questionId := "OLY_1", questionType := "numerical", difficulty := "easy",
    conceptTags := ["ALGEBRA"], questionText := "What is 2 + 2?",
    correctAnswer := "4", answerType := "integer" }

/-- A concrete session: one question, answered after 5 seconds. -/
def sampleSession : QuizSession :=
  { questions := [sampleQuestion]
    responses :=
      [("OLY_1", { finalAnswer := some "4", changedAnswer := false, typedWork := "sum" })]
    questionStartTimes := [("OLY_1", 100)]
    firstAttemptTimes := [("OLY_1", 5)]
    optionChanges := [("OLY_1", 0)]
    startTime := 90
    uploadedFiles := [] }

/-- A concrete judge: the deterministic fallback comparison. -/
def sampleJudge : String → String → String → String → Bool :=
  fun s c _ _ => fallback_compare s c

/-- Concrete per-question OCR environments: no credential anywhere. -/
def sampleOcrEnvs : String → OcrEnv :=
  fun _ => { apiKey := none, ocrResult := none }

theorem easy_length_eq_specEasyCount (qs : List Stage1Record) :
    (easy_questions qs).length = specEasyCount qs := by
  rw [easy_questions, specEasyCount, List.countP_eq_length_filter]

theorem overthinking_count_eq_spec (qs : List Stage1Record) :
    overthinking_count qs = specOverthinkCount qs := by
  rw [overthinking_count, easy_questions, specOverthinkCount, List.countP_filter]
  exact List.countP_congr (fun x _ => by
    cases hd : (x.difficulty == "easy") <;> simp [hd])

/-- Claim C2: for every Stage-1 report handed to the Stage-2 aggregator,
the overthinking index equals the number of easy questions whose time
spent exceeds 120 seconds divided by the total number of easy questions
regardless of attempt status, and equals 0 when there are no easy
questions. -/
theorem c2_overthinking_index (qs : List Stage1Record) :
    overthinking_index qs =
      if specEasyCount qs = 0 then 0
      else (specOverthinkCount qs : ℚ) / (specEasyCount qs : ℚ) := by
  rw [overthinking_index, overthinking_count_eq_spec]
  rcases h : specEasyCount qs with _ | n
  · have : (easy_questions qs).isEmpty = true := by
      rw [List.isEmpty_iff_length_eq_zero, easy_length_eq_specEasyCount, h]
    simp [this]
  · have : (easy_questions qs).isEmpty = false := by
      rw [List.isEmpty_eq_false_iff_exists_mem]
      have hl : (easy_questions qs).length = n + 1 := by
        rw [easy_length_eq_specEasyCount, h]
      rcases he : easy_questions qs with _ | ⟨a, l⟩
      · rw [he] at hl; simp at hl
      · exact ⟨a, List.mem_cons_self a l⟩
    simp [this, easy_length_eq_specEasyCount, h]

set_option maxRecDepth 8192 in
/-- Claim C4 (counterexample): a solution text of length exactly 200 is
classified `medium` by the first store's heuristic, not `easy` as the
claim states for length 200. -/
theorem c4_counterexample :
    ¬ (storeOneDifficulty (sampleText 49) = "easy" ∧
       storeOneDifficulty (sampleText 200) = "easy" ∧
       storeOneDifficulty (sampleText 501) = "hard") := by
  intro h
  have h200 : storeOneDifficulty (sampleText 200) = "medium" := by decide
  rw [h200] at h
  exact absurd h.2.1 (by decide)

set_option maxRecDepth 8192 in
/-- Claim C4 (amended): the first store's difficulty heuristic classifies
solution texts of lengths 49, 200 and 501 as easy, medium and hard
respectively (length exactly 200 falls outside the strict `< 200` easy
threshold). -/
theorem c4_amended :
    storeOneDifficulty (sampleText 49) = "easy" ∧
    storeOneDifficulty (sampleText 200) = "medium" ∧
    storeOneDifficulty (sampleText 501) = "hard" := by
  refine ⟨by decide, by decide, by decide⟩

/-- Claim C5: with no service credential configured, the correctness
judge decides by case-insensitive, whitespace-trimmed exact string
equality; in particular it accepts 1/2 against 1/2 and rejects 0.5
against 1/2, for every question text and answer type. -/
theorem c5_fallback_judge (env : LLMEnv) (h : env.apiKey = none) :
    (∀ q t, check_answer_with_llm env "1/2" "1/2" q t = true) ∧
    (∀ q t, check_answer_with_llm env "0.5" "1/2" q t = false) ∧
    (∀ s c q t, check_answer_with_llm env s c q t = true ↔
      pyLower (pyStrip s) = pyLower (pyStrip c)) := by
  have hk : ∀ s c q t, check_answer_with_llm env s c q t = fallback_compare s c := by
    intro s c q t
    rw [check_answer_with_llm, h]
  refine ⟨fun q t => ?_, fun q t => ?_, fun s c q t => ?_⟩
  · rw [hk]; decide
  · rw [hk]; decide
  · rw [hk, fallback_compare]; exact beq_iff_eq

theorem c5_witness :
    envNoKey.apiKey = none ∧
    check_answer_with_llm envNoKey "1/2" "1/2" "What is one half?" "fraction" = true ∧
    check_answer_with_llm envNoKey "0.5" "1/2" "What is one half?" "fraction" = false :=
  ⟨rfl,
   (c5_fallback_judge envNoKey rfl).1 "What is one half?" "fraction",
   (c5_fallback_judge envNoKey rfl).2.1 "What is one half?" "fraction"⟩

/-- Claim C8 (code bug): when the question has an uploaded image and a
credential is configured but the external OCR call raises, control never
reaches the `os.remove` that sits on the success path of the `try`
block, so the temporary upload file is written but not removed. -/
theorem c8_temp_file_leaked :
    (process_student_work leakEnv "typed" true).tempWritten = true ∧
    (process_student_work leakEnv "typed" true).tempRemoved = false := by
  exact ⟨rfl, rfl⟩

/-- Claim C10: for every Stage-1 report and every concept with at least
one attempted question, the rule-based work-quality rating takes only
the values 3, 4, 6 or 8. -/
theorem c10_work_quality_values (qs : List Stage1Record) (tag : String)
    (_h : 0 < concept_attempted tag qs) :
    concept_work_quality tag qs ∈ ([3, 4, 6, 8] : List Nat) := by
  rw [concept_work_quality, work_quality]
  split_ifs <;> simp

theorem c10_witness :
    0 < concept_attempted "ALGEBRA" [sampleRecord] ∧
    concept_work_quality "ALGEBRA" [sampleRecord] ∈ ([3, 4, 6, 8] : List Nat) :=
  ⟨by decide, c10_work_quality_values [sampleRecord] "ALGEBRA" (by decide)⟩

/-- Claim C7 (counterexample): with typed work and a successful OCR
transcription both present, the code combines them under markdown-bold
headers, so the combined text is not the bare-header string the claim
states. -/
theorem c7_counterexample :
    (process_student_work ocrEnvOk "my typed" true).combinedText ≠
      "Typed Work:\nmy typed\n\nHandwritten Work (OCR):\nlines of work" := by
  decide

/-- Claim C7 (amended): with no uploaded image the OCR text is empty and
the combined text is the typed work; with an image, a credential and a
successful transcription, the combined text is exactly
`**Typed Work:**\n{typed}\n\n**Handwritten Work (OCR):**\n{ocr}` when
both typed work and OCR text are present, else just the OCR text. -/
theorem c7_amended (env : OcrEnv) (typed : String) :
    ((process_student_work env typed false).ocrText = "" ∧
     (process_student_work env typed false).combinedText = typed) ∧
    (∀ k raw, env.apiKey = some k → env.ocrResult = some raw →
      ((process_student_work env typed true).ocrText = pyStrip raw ∧
       (typed ≠ "" → pyStrip raw ≠ "" →
        (process_student_work env typed true).combinedText =
          "**Typed Work:**\n" ++ typed ++ "\n\n**Handwritten Work (OCR):**\n" ++ pyStrip raw) ∧
       (typed = "" → pyStrip raw ≠ "" →
        (process_student_work env typed true).combinedText = pyStrip raw))) := by
  constructor
  · exact ⟨rfl, rfl⟩
  · intro k raw hk hr
    refine ⟨?_, ?_, ?_⟩
    · simp [process_student_work, hk, hr]
    · intro ht ho
      simp [process_student_work, hk, hr, ht, ho]
    · intro ht ho
      simp [process_student_work, hk, hr, ht, ho]

theorem c7_amended_witness :
    (process_student_work ocrEnvOk "my typed" false).combinedText = "my typed" ∧
    (ocrEnvOk.apiKey = some "k" ∧ ocrEnvOk.ocrResult = some "lines of work" ∧
     "my typed" ≠ "" ∧ pyStrip "lines of work" ≠ "" ∧
     (process_student_work ocrEnvOk "my typed" true).combinedText =
       "**Typed Work:**\nmy typed\n\n**Handwritten Work (OCR):**\n" ++ pyStrip "lines of work") :=
  ⟨(c7_amended ocrEnvOk "my typed").1.2,
   rfl, rfl, by decide, by decide,
   (((c7_amended ocrEnvOk "my typed").2 "k" "lines of work" rfl rfl).2.1
     (by decide) (by decide))⟩

/-- Claim C9: Stage-3 synthesis returns no result whenever the service
credential is missing, the call fails, or the response does not parse as
JSON; in that case the submit flow persists nothing, does not finalize
the quiz, and leaves the already-computed Stage-1 and Stage-2 reports
unchanged. -/
theorem c9_stage3_failure {σ₁ σ₂ : Type} (env : Stage3Env)
    (parse : String → Option PyVal) (s1 : σ₁) (s2 : σ₂)
    (hfail : env.apiKey = none ∨ env.llmResponse = none ∨
      ∀ txt, env.llmResponse = some txt → parse (stripCodeFences txt) = none) :
    generate_stage3_report_with_llm env parse = none ∧
    (render_submit s1 s2 (generate_stage3_report_with_llm env parse)).persisted = false ∧
    (render_submit s1 s2 (generate_stage3_report_with_llm env parse)).finalized = false ∧
    (render_submit s1 s2 (generate_stage3_report_with_llm env parse)).stage1 = s1 ∧
    (render_submit s1 s2 (generate_stage3_report_with_llm env parse)).stage2 = s2 := by
  have hnone : generate_stage3_report_with_llm env parse = none := by
    rw [generate_stage3_report_with_llm]
    cases hk : env.apiKey with
    | none => rfl
    | some key =>
      cases hr : env.llmResponse with
      | none => rfl
      | some txt =>
        rcases hfail with h | h | h
        · rw [hk] at h; exact Option.noConfusion h
        · rw [hr] at h; exact Option.noConfusion h
        · exact h txt hr
  refine ⟨hnone, ?_, ?_, ?_, ?_⟩ <;> rw [hnone] <;> rfl

theorem c9_witness :
    stage3FailEnv.apiKey = none ∧
    generate_stage3_report_with_llm stage3FailEnv parseNone = none ∧
    (render_submit (1 : Nat) (2 : Nat)
      (generate_stage3_report_with_llm stage3FailEnv parseNone)).persisted = false ∧
    (render_submit (1 : Nat) (2 : Nat)
      (generate_stage3_report_with_llm stage3FailEnv parseNone)).finalized = false :=
  ⟨rfl,
   (c9_stage3_failure stage3FailEnv parseNone 1 2 (Or.inl rfl)).1,
   (c9_stage3_failure stage3FailEnv parseNone 1 2 (Or.inl rfl)).2.1,
   (c9_stage3_failure stage3FailEnv parseNone 1 2 (Or.inl rfl)).2.2.1⟩

/-- Claim C6 (counterexample): the empty string is not valid JSON — the
parser raises on it, modelled by `parseNone "" = none` — yet the
extractor returns `None` (the falsy-input early return of line 122-123)
rather than the raw input string unchanged. -/
theorem c6_counterexample :
    parseNone "" = none ∧
    extract_answer_from_json parseNone "" "integer" ≠ some "" :=
  ⟨rfl, by decide⟩

/-- Claim C6 (amended): the extractor returns, for a JSON dict payload,
the stringified value at the first present key among `answer`, `value`
and — for integer/float answer types — `number`, `numerical_value`,
`result`; for a non-empty JSON list, the stringified first element; for
any non-empty input that is not valid JSON, the raw input string
unchanged; and for the empty input, no result at all. -/
theorem c6_amended (parse : String → Option PyVal) (s atype : String) :
    (extract_answer_from_json parse "" atype = none) ∧
    (s ≠ "" → parse s = none → extract_answer_from_json parse s atype = some s) ∧
    (∀ kvs v, s ≠ "" → parse s = some (.pyDict kvs) →
      specFirstKeyValue atype kvs = some v →
      extract_answer_from_json parse s atype = some (pyStr v)) ∧
    (∀ x xs, s ≠ "" → parse s = some (.pyList (x :: xs)) →
      extract_answer_from_json parse s atype = some (pyStr x)) := by
  refine ⟨by simp [extract_answer_from_json], ?_, ?_, ?_⟩
  · intro hs hp
    simp [extract_answer_from_json, hs, hp]
  · intro kvs v hs hp hkey
    rw [extract_answer_from_json]
    rw [if_neg (by simp [hs]), hp]
    rw [specFirstKeyValue, specAnswerKeys] at hkey
    cases h1 : List.lookup "answer" kvs with
    | some w =>
      simp [List.findSome?_cons, h1] at hkey
      simp [h1, hkey]
    | none =>
      cases h2 : List.lookup "value" kvs with
      | some w =>
        simp [List.findSome?_cons, h1, h2] at hkey
        simp [h1, h2, hkey]
      | none =>
        cases hnum : (atype == "integer" || atype == "float") with
        | false =>
          simp [List.findSome?_cons, h1, h2, hnum] at hkey
        | true =>
          cases h3 : List.lookup "number" kvs with
          | some w =>
            simp [List.findSome?_cons, h1, h2, h3, hnum] at hkey
            simp [h1, h2, h3, hnum, hkey]
          | none =>
            cases h4 : List.lookup "numerical_value" kvs with
            | some w =>
              simp [List.findSome?_cons, h1, h2, h3, h4, hnum] at hkey
              simp [h1, h2, h3, h4, hnum, hkey]
            | none =>
              cases h5 : List.lookup "result" kvs with
              | some w =>
                simp [List.findSome?_cons, h1, h2, h3, h4, h5, hnum] at hkey
                simp [h1, h2, h3, h4, h5, hnum, hkey]
              | none =>
                simp [List.findSome?_cons, h1, h2, h3, h4, h5, hnum] at hkey
  · intro x xs hs hp
    simp [extract_answer_from_json, hs, hp]

theorem c6_amended_witness :
    ("notjson" ≠ "" ∧ parseNone "notjson" = none ∧
      extract_answer_from_json parseNone "notjson" "integer" = some "notjson") ∧
    (parseDemo "obj" = some (.pyDict [("value", .pyInt 3)]) ∧
      specFirstKeyValue "integer" [("value", PyVal.pyInt 3)] = some (.pyInt 3) ∧
      extract_answer_from_json parseDemo "obj" "integer" = some (pyStr (.pyInt 3))) ∧
    (parseDemo "arr" = some (.pyList [.pyString "first", .pyInt 2]) ∧
      extract_answer_from_json parseDemo "arr" "expression" = some (pyStr (.pyString "first"))) :=
  ⟨⟨by decide, rfl,
    (c6_amended parseNone "notjson" "integer").2.1 (by decide) rfl⟩,
   ⟨rfl, rfl,
    (c6_amended parseDemo "obj" "integer").2.2.1 [("value", PyVal.pyInt 3)]
      (PyVal.pyInt 3) (by decide) rfl rfl⟩,
   ⟨rfl,
    (c6_amended parseDemo "arr" "expression").2.2.2 (PyVal.pyString "first")
      [PyVal.pyInt 2] (by decide) rfl⟩⟩

theorem latency_pos_attempted (sess : QuizSession) (hinv : SessionInv sess)
    (qid : String) (h : 0 < latencyOf sess qid) :
    finalAnswerOf sess qid ≠ "" := by
  rw [latencyOf] at h
  cases hl : sess.firstAttemptTimes.lookup qid with
  | none => rw [hl] at h; simp at h
  | some v =>
    obtain ⟨r, str, hr, hstr, hne⟩ := hinv qid v hl
    rw [finalAnswerOf, respOf, hr, Option.getD_some, hstr, Option.getD_some]
    exact hne

theorem stage1_latency_attempted (judge : String → String → String → String → Bool)
    (ocrEnvs : String → OcrEnv) (sess : QuizSession) (now : Nat)
    (hinv : SessionInv sess) :
    ∀ rec ∈ stage1Records judge ocrEnvs sess now,
      0 < rec.firstAttemptLatencySec → rec.finalAnswer ≠ "" := by
  intro rec hrec
  rw [stage1Records] at hrec
  obtain ⟨q, hq, rfl⟩ := List.mem_map.mp hrec
  intro hlat
  exact latency_pos_attempted sess hinv q.questionId hlat

theorem impulsive_count_eq_spec (qs : List Stage1Record)
    (h : ∀ q ∈ qs, 0 < q.firstAttemptLatencySec → q.finalAnswer ≠ "") :
    impulsive_count qs = specImpulsiveCount qs := by
  rw [impulsive_count, specImpulsiveCount]
  refine List.countP_congr (fun x hx => ?_)
  simp only [Bool.and_eq_true, decide_eq_true_eq, bne_iff_ne, ne_eq]
  constructor
  · rintro ⟨h0, h20⟩
    exact ⟨⟨h x hx h0, h0⟩, h20⟩
  · rintro ⟨⟨hfa, h0⟩, h20⟩
    exact ⟨h0, h20⟩

theorem specImpulsiveCount_le_attempted (qs : List Stage1Record) :
    specImpulsiveCount qs ≤ total_attempted qs := by
  rw [specImpulsiveCount, total_attempted]
  refine List.countP_mono_left (fun x hx hb => ?_)
  simp only [Bool.and_eq_true] at hb
  exact hb.1.1

theorem overthinking_index_mem_unit (qs : List Stage1Record) :
    0 ≤ overthinking_index qs ∧ overthinking_index qs ≤ 1 := by
  by_cases hE : (easy_questions qs).isEmpty
  · rw [overthinking_index, if_pos hE]
    norm_num
  · rw [overthinking_index, if_neg hE]
    have hlen : 0 < (easy_questions qs).length := by
      rcases Nat.eq_zero_or_pos (easy_questions qs).length with h0 | h0
      · exact absurd (List.isEmpty_iff_length_eq_zero.mpr h0) hE
      · exact h0
    have hpos : (0 : ℚ) < ((easy_questions qs).length : ℚ) := by exact_mod_cast hlen
    constructor
    · positivity
    · rw [div_le_one hpos]
      exact_mod_cast List.countP_le_length _

/-- Claim C1: for every Stage-1 report produced by the Stage-1 aggregator
(under the shell invariant that a recorded first-attempt latency implies
a non-empty stored answer), the impulsivity index equals the fraction of
attempted questions whose first-attempt latency lies in the open interval
(0, 20); it is 0 when no question is attempted; and together with the
overthinking index it always lies in [0, 1]. -/
theorem c1_impulsivity_index (judge : String → String → String → String → Bool)
    (ocrEnvs : String → OcrEnv) (sess : QuizSession) (now : Nat)
    (hinv : SessionInv sess) :
    ∀ qs, qs = (generate_performance_report judge ocrEnvs sess now).questions →
      impulsivity_index qs = specImpulsivityIndex qs ∧
      (total_attempted qs = 0 → impulsivity_index qs = 0) ∧
      (0 ≤ impulsivity_index qs ∧ impulsivity_index qs ≤ 1) ∧
      (0 ≤ overthinking_index qs ∧ overthinking_index qs ≤ 1) := by
  intro qs hqs
  have hpt : ∀ q ∈ qs, 0 < q.firstAttemptLatencySec → q.finalAnswer ≠ "" := by
    rw [hqs]
    exact stage1_latency_attempted judge ocrEnvs sess now hinv
  have heq : impulsive_count qs = specImpulsiveCount qs := impulsive_count_eq_spec qs hpt
  refine ⟨?_, ?_, ?_, overthinking_index_mem_unit qs⟩
  · rw [impulsivity_index, specImpulsivityIndex, heq]
  · intro h0
    rw [impulsivity_index, if_neg (by omega)]
  · by_cases hA : 0 < total_attempted qs
    · rw [impulsivity_index, if_pos hA]
      have hApos : (0 : ℚ) < (total_attempted qs : ℚ) := by exact_mod_cast hA
      constructor
      · positivity
      · rw [div_le_one hApos]
        have hle : impulsive_count qs ≤ total_attempted qs := by
          rw [heq]
          exact specImpulsiveCount_le_attempted qs
        exact_mod_cast hle
    · rw [impulsivity_index, if_neg hA]
      norm_num

theorem sampleSession_inv : SessionInv sampleSession := by
  intro qid v h
  cases hq : (qid == "OLY_1") with
  | false =>
    simp [sampleSession, List.lookup, hq] at h
  | true =>
    refine ⟨{ finalAnswer := some "4", changedAnswer := false, typedWork := "sum" },
      "4", ?_, rfl, by decide⟩
    simp [sampleSession, List.lookup, hq]

theorem c1_witness :
    SessionInv sampleSession ∧
    impulsivity_index
        (generate_performance_report sampleJudge sampleOcrEnvs sampleSession 130).questions =
      specImpulsivityIndex
        (generate_performance_report sampleJudge sampleOcrEnvs sampleSession 130).questions ∧
    impulsivity_index
        (generate_performance_report sampleJudge sampleOcrEnvs sampleSession 130).questions ≤ 1 :=
  ⟨sampleSession_inv,
   (c1_impulsivity_index sampleJudge sampleOcrEnvs sampleSession 130 sampleSession_inv
     _ rfl).1,
   (c1_impulsivity_index sampleJudge sampleOcrEnvs sampleSession 130 sampleSession_inv
     _ rfl).2.2.1.2⟩

theorem revisionOutcomeOf_spec (n : Nat) (c : Bool) :
    (revisionOutcomeOf n c = "none" ↔ n = 0) ∧
    (0 < n → revisionOutcomeOf n c = if c then "improved" else "worsened") := by
  rcases Nat.eq_zero_or_pos n with h | h
  · subst h
    constructor
    · simp [revisionOutcomeOf]
    · intro h0
      exact absurd h0 (by omega)
  · constructor
    · rw [revisionOutcomeOf, if_pos h]
      constructor
      · intro habs
        exfalso
        cases c with
        | true => exact absurd habs (by decide)
        | false => exact absurd habs (by decide)
      · intro h0
        exact absurd h0 (by omega)
    · intro _
      rw [revisionOutcomeOf, if_pos h]

/-- Claim C3: for every Stage-1 record produced by the Stage-1
aggregator, `revision_outcome` is `none` iff `num_option_changes` is 0,
and with a positive change count it is `improved` when `is_correct`
holds and `worsened` otherwise. -/
theorem c3_revision_outcome (judge : String → String → String → String → Bool)
    (ocrEnvs : String → OcrEnv) (sess : QuizSession) (now : Nat) :
    ∀ rec ∈ (generate_performance_report judge ocrEnvs sess now).questions,
      (rec.revisionOutcome = "none" ↔ rec.numOptionChanges = 0) ∧
      (0 < rec.numOptionChanges →
        rec.revisionOutcome = if rec.isCorrect then "improved" else "worsened") := by
  intro rec hrec
  have hm : rec ∈ stage1Records judge ocrEnvs sess now := hrec
  rw [stage1Records] at hm
  obtain ⟨q, hq, rfl⟩ := List.mem_map.mp hm
  exact revisionOutcomeOf_spec (numChangesOf sess q.questionId) (isCorrectOf judge sess q)

theorem c3_witness :
    (mkRecord sampleJudge sampleOcrEnvs sampleSession 130 sampleQuestion ∈
      (generate_performance_report sampleJudge sampleOcrEnvs sampleSession 130).questions) ∧
    ((mkRecord sampleJudge sampleOcrEnvs sampleSession 130 sampleQuestion).revisionOutcome = "none" ↔
      (mkRecord sampleJudge sampleOcrEnvs sampleSession 130 sampleQuestion).numOptionChanges = 0) :=
  ⟨List.mem_cons_self _ _,
   (c3_revision_outcome sampleJudge sampleOcrEnvs sampleSession 130 _
     (List.mem_cons_self _ _)).1⟩
